import Mathlib

/-!
Shallow embedding of the Meal Checker backend (hotaq/Backend_meal).

The repository has two route-stack variants:
* `server.js` — spreadsheet-backed: no authentication; `analyze-meal`
  appends a row to a Google Sheet via `appendToSheet`, `meal-history`
  reads all rows back via `getSheetData`.
* the MongoDB variant — JWT auth middleware (`auth`) guarding
  `analyze-meal` / `meal-history`, `register` / `login` routes, and a
  `Meal` collection storing the raw image buffer.

External library primitives (jsonwebtoken, bcryptjs, multer) are modelled
abstractly, faithful to how the source calls them:
* a JWT is modelled as its payload id together with the signing secret and
  the expiry instant; `jwt.verify` succeeds exactly when the secret matches
  and the token is not yet expired;
* `bcrypt.hash`/`bcrypt.compare` are modelled by an arbitrary hash function
  parameter, with `compare p h` true exactly when `h` is the hash of `p`;
* multer's `memoryStorage` upload with the 10 MB `fileSize` limit and the
  `image/` mimetype `fileFilter` is `uploadSingle`; a filter or limit error
  propagates to the express error middleware (status 500 in the source).

`Math.random()`-derived draws are passed in as a `Draws` record: `r0` is
the boolean `Math.random() > 0.5`, and `r1`/`r2`/`r3` are the already
floored values `Math.floor(Math.random() * k)` for k = 30, 50, 20.
Clock readings (`Date.now()`, `new Date().toISOString()`) are parameters.
-/

/-- JavaScript `s.startsWith(pre)`: `pre`'s characters are a prefix of
`s`'s. -/
def jsStartsWith (s pre : String) : Bool := pre.data.isPrefixOf s.data

/-- Character-level splitter for JavaScript `s.split(', ')`: scan left to
right, cutting at each earliest occurrence of the two-character
separator `', '`. -/
def splitCS : List Char → List (List Char)
  | [] => [[]]
  | ',' :: ' ' :: rest => [] :: splitCS rest
  | c :: rest =>
    match splitCS rest with
    | [] => [[c]]
    | t :: ts => (c :: t) :: ts

/-- JavaScript `s.split(', ')`. -/
def splitCommaSpace (s : String) : List String :=
  (splitCS s.data).map (fun cs => ⟨cs⟩)

/-- Nutritional info sub-document of a meal analysis. -/
structure NutritionalInfo where
  proteins : Nat
  carbs : Nat
  fats : Nat
  calories : Nat
deriving DecidableEq, Repr

/-- The synthetic analysis produced by the analyze-meal handler:
completeness flag, nutrition numbers and suggestion list. -/
structure Analysis where
  isComplete : Bool
  nutritionalInfo : NutritionalInfo
  suggestions : List String
deriving DecidableEq, Repr

/-- Pseudo-random draws consumed by one run of the analyze-meal handler.
`r0` models `Math.random() > 0.5`; `r1`, `r2`, `r3` model the floored
draws `Math.floor(Math.random() * 30 / 50 / 20)`. -/
structure Draws where
  r0 : Bool
  r1 : Nat
  r2 : Nat
  r3 : Nat
deriving DecidableEq, Repr

/-- The fixed improvement-suggestion list attached to incomplete meals
(both variants, verbatim from the source). -/
def improvementSuggestions : List String :=
  ["Add more vegetables for a balanced meal",
   "Consider adding a source of lean protein",
   "Include whole grains for fiber"]

/-- The random meal analysis generated inside the analyze-meal handler:
`isComplete = Math.random() > 0.5`, `proteins = floor(rand*30)+10`,
`carbs = floor(rand*50)+20`, `fats = floor(rand*20)+5`,
`calories = proteins*4 + carbs*4 + fats*9`, and the fixed suggestions
when incomplete, none otherwise. -/
def generateAnalysis (d : Draws) : Analysis :=
  let isComplete := d.r0
  let proteins := d.r1 + 10
  let carbs := d.r2 + 20
  let fats := d.r3 + 5
  let calories := proteins * 4 + carbs * 4 + fats * 9
  { isComplete := isComplete
    nutritionalInfo :=
      { proteins := proteins, carbs := carbs, fats := fats, calories := calories }
    suggestions := if isComplete then [] else improvementSuggestions }

/-! ## Upload receiver (multer) -/

/-- An uploaded multipart file as multer's `memoryStorage` presents it:
original name, declared content type, and the raw bytes. -/
structure UploadedFile where
  originalname : String
  mimetype : String
  buffer : List Nat
deriving DecidableEq, Repr

/-- The multer limit `fileSize: 10 * 1024 * 1024` — the 10 MB ceiling. -/
def fileSizeLimit : Nat := 10 * 1024 * 1024

/-- The two ways the multer layer aborts a request:
the `fileFilter` error (`'Only image files are allowed!'`) for a
non-`image/` content type, and the `LIMIT_FILE_SIZE` MulterError
above the `fileSize` limit. -/
inductive UploadError
  | unsupportedMediaType
  | payloadTooLarge
deriving DecidableEq, Repr

/-- The middleware `upload.single('image')`: no file passes through as `none`; a file
whose mimetype does not start with `image/` is refused by `fileFilter`
(checked when the part header arrives, before the body is streamed);
a body above the `fileSize` limit aborts with `LIMIT_FILE_SIZE`. -/
def uploadSingle (file? : Option UploadedFile) :
    Except UploadError (Option UploadedFile) :=
  match file? with
  | none => .ok none
  | some f =>
    if jsStartsWith f.mimetype "image/" then
      if f.buffer.length ≤ fileSizeLimit then .ok (some f)
      else .error .payloadTooLarge
    else .error .unsupportedMediaType

/-! ## JWT and auth middleware (MongoDB variant) -/

/-- Abstract model of a signed JWT as issued by `jwt.sign({id}, secret,
{expiresIn})`: the embedded user id, the secret it was signed with, and
the absolute expiry instant. A "tampered" token is one whose recorded
secret differs from the verifier's. -/
structure Token where
  payloadId : String
  secret : String
  exp : Nat
deriving DecidableEq, Repr

/-- The call `jwt.sign` with payload `id` and `expiresIn: '1d'`: token embedding the
id, expiring 86400 seconds from now. -/
def jwtSign (secret : String) (now : Nat) (uid : String) : Token :=
  { payloadId := uid, secret := secret, exp := now + 86400 }

/-- The call `jwt.verify(token, secret)`: returns the decoded id when the signature
checks out (same secret) and the token has not expired; otherwise throws
(modelled as `none`). -/
def jwtVerify (secret : String) (now : Nat) (t : Token) : Option String :=
  if t.secret = secret ∧ now < t.exp then some t.payloadId else none

/-- Outcome of the auth middleware: either the request is answered with an
error status (handler never runs) or the decoded user id is attached
to the request. -/
inductive AuthResult
  | rejected (status : Nat) (message : String)
  | authed (userId : String)
deriving DecidableEq, Repr

/-- The `auth` middleware: reads the `x-auth-token` header; 401 if absent;
verifies with the JWT secret and 401s if verification throws; otherwise
attaches the decoded user to the request. -/
def auth (secret : String) (now : Nat) (token? : Option Token) : AuthResult :=
  match token? with
  | none => .rejected 401 "No token, authorization denied"
  | some t =>
    match jwtVerify secret now t with
    | some uid => .authed uid
    | none => .rejected 401 "Token is not valid"

/-! ## MongoDB data model -/

/-- A document in the `User` collection: username, bcrypt-hashed
password, creation time. -/
structure User where
  id : String
  username : String
  password : String
  createdAt : Nat
deriving DecidableEq, Repr

/-- A document in the `Meal` collection. -/
structure Meal where
  id : String
  userId : String
  imagePath : String
  imageBuffer : List Nat
  isComplete : Bool
  nutritionalInfo : NutritionalInfo
  suggestions : List String
  createdAt : Nat
deriving DecidableEq, Repr

/-- The analysis-valued projection of a stored meal record (everything
the generator decided, nothing about the image or the owner). -/
def Meal.analysisOf (m : Meal) : Analysis :=
  { isComplete := m.isComplete
    nutritionalInfo := m.nutritionalInfo
    suggestions := m.suggestions }

/-- The call `bcrypt.compare(password, stored)`: true exactly when the stored
string is the hash of the candidate password. -/
def bcryptCompare (bcryptHash : String → String) (password stored : String) : Bool :=
  stored = bcryptHash password

/-! ## Auth routes (MongoDB variant) -/

/-- Response of `POST /auth/register`. -/
inductive RegisterResult
  | conflict (status : Nat) (message : String)
  | created (status : Nat) (token : Token) (id username : String)
deriving DecidableEq, Repr

/-- Route `POST /auth/register`: finds any user with the username; 400
`'User already exists'` on a hit; otherwise store the bcrypt hash of
the password as a new user, sign a 1-day token and answer 201 with
token plus `{id, username}`. -/
def register (bcryptHash : String → String) (secret : String) (now : Nat)
    (newId : String) (users : List User) (username password : String) :
    RegisterResult × List User :=
  match users.find? (fun u => u.username = username) with
  | some _ => (.conflict 400 "User already exists", users)
  | none =>
    let newUser : User :=
      { id := newId, username := username, password := bcryptHash password,
        createdAt := now }
    (.created 201 (jwtSign secret now newId) newId username, users ++ [newUser])

/-- Response of `POST /auth/login`. -/
inductive LoginResult
  | invalid (status : Nat) (message : String)
  | success (token : Token) (id username : String)
deriving DecidableEq, Repr

/-- Route `POST /auth/login`: finds any user with the username; 400
`'Invalid credentials'` when absent or when `bcrypt.compare` fails;
otherwise answer with a fresh 1-day token and `{id, username}`. -/
def login (bcryptHash : String → String) (secret : String) (now : Nat)
    (users : List User) (username password : String) : LoginResult :=
  match users.find? (fun u => u.username = username) with
  | none => .invalid 400 "Invalid credentials"
  | some u =>
    if bcryptCompare bcryptHash password u.password then
      .success (jwtSign secret now u.id) u.id u.username
    else .invalid 400 "Invalid credentials"

/-! ## Meal routes (MongoDB variant) -/

/-- A field value of a serialized meal document (the object produced by
`mealAnalysis.toObject()`), flattened so each field of the schema has a
constructor. -/
inductive MealField
  | str : String → MealField
  | bytes : List Nat → MealField
  | bool : Bool → MealField
  | nutri : NutritionalInfo → MealField
  | strs : List String → MealField
  | nat : Nat → MealField
deriving DecidableEq, Repr

/-- The call `meal.toObject()`: the plain key/value object for a `Meal` document,
one entry per schema field. -/
def mealToObject (m : Meal) : List (String × MealField) :=
  [("_id", .str m.id),
   ("userId", .str m.userId),
   ("imagePath", .str m.imagePath),
   ("imageBuffer", .bytes m.imageBuffer),
   ("isComplete", .bool m.isComplete),
   ("nutritionalInfo", .nutri m.nutritionalInfo),
   ("suggestions", .strs m.suggestions),
   ("createdAt", .nat m.createdAt)]

/-- The statement `delete obj.k`: the object with the entry for key `k` removed. -/
def deleteField (k : String) (o : List (String × MealField)) :
    List (String × MealField) :=
  o.filter (fun p => ¬ p.1 = k)

/-- The expression `obj[k]`: field lookup on a serialized object. -/
def getField (k : String) (o : List (String × MealField)) : Option MealField :=
  (o.find? (fun p => p.1 = k)).map Prod.snd

/-- The analyze-meal response object: `mealAnalysis.toObject()` with
`imageBuffer` deleted. -/
def responseAnalysis (m : Meal) : List (String × MealField) :=
  deleteField "imageBuffer" (mealToObject m)

/-- The incoming request as the protected meal routes see it: the
`x-auth-token` header and the (multer-parsed) uploaded file. -/
structure Request where
  xAuthToken : Option Token
  file : Option UploadedFile
deriving DecidableEq, Repr

/-- JSON answer of `POST /api/v1/analyze-meal` (MongoDB variant). -/
inductive AnalyzeResponse
  | err (status : Nat) (message : String)
  | ok (record : List (String × MealField))
deriving DecidableEq, Repr

/-- Route `POST /api/v1/analyze-meal` (MongoDB variant), middleware chain and
handler body: `auth` rejection answers directly; a multer error falls
through to the error middleware (500 `'Something went wrong!'`); a
missing file answers 400; otherwise the random analysis is generated,
a `Meal` document (including the raw image buffer) is saved, and the
document minus `imageBuffer` is returned. The whole route is a function
of the store plus the ambient draws/clock/id inputs. The
`new Meal({...})` document built inside the handler is `mkMeal`:
authenticated owner, timestamp-named image path, the raw buffer, and the
generated analysis. -/
def mkMeal (newId uid : String) (now : Nat) (f : UploadedFile) (a : Analysis) :
    Meal :=
  { id := newId
    userId := uid
    imagePath := "/uploads/meal_" ++ toString now ++ ".jpg"
    imageBuffer := f.buffer
    isComplete := a.isComplete
    nutritionalInfo := a.nutritionalInfo
    suggestions := a.suggestions
    createdAt := now }

/-- The analyze-meal route of the MongoDB variant as a function of the
store and the ambient draws/clock/id inputs (see `mkMeal` above for the
saved document). -/
def analyzeMealMongo (secret : String) (now : Nat) (newId : String) (d : Draws)
    (req : Request) (store : List Meal) : AnalyzeResponse × List Meal :=
  match auth secret now req.xAuthToken with
  | .rejected st msg => (.err st msg, store)
  | .authed uid =>
    match uploadSingle req.file with
    | .error _ => (.err 500 "Something went wrong!", store)
    | .ok none => (.err 400 "No image uploaded", store)
    | .ok (some f) =>
      let meal := mkMeal newId uid now f (generateAnalysis d)
      (.ok (responseAnalysis meal), store ++ [meal])

/-- One step of the descending-`createdAt` insertion modelling
`.sort({ createdAt: -1 })`: a record is placed before the first one
that does not strictly precede it. -/
def insertByCreatedAtDesc (m : Meal) : List Meal → List Meal
  | [] => [m]
  | x :: xs =>
    if x.createdAt ≤ m.createdAt then m :: x :: xs
    else x :: insertByCreatedAtDesc m xs

/-- The query modifier `sort createdAt: -1`: stable sort by descending creation time. -/
def sortByCreatedAtDesc : List Meal → List Meal
  | [] => []
  | x :: xs => insertByCreatedAtDesc x (sortByCreatedAtDesc xs)

/-- The query `Meal.find` on `userId: ownerId` sorted newest first: the caller's
records, newest first. -/
def listByOwner (ownerId : String) (store : List Meal) : List Meal :=
  sortByCreatedAtDesc (store.filter (fun m => m.userId = ownerId))

/-- JSON answer of `GET /api/v1/meal-history` (MongoDB variant). -/
inductive HistoryResponse
  | err (status : Nat) (message : String)
  | ok (records : List (List (String × MealField)))
deriving DecidableEq, Repr

/-- Route `GET /api/v1/meal-history` (MongoDB variant): `auth`, then the
caller's records newest first, each serialized without `imageBuffer`. -/
def mealHistoryMongo (secret : String) (now : Nat) (req : Request)
    (store : List Meal) : HistoryResponse :=
  match auth secret now req.xAuthToken with
  | .rejected st msg => .err st msg
  | .authed uid => .ok ((listByOwner uid store).map responseAnalysis)

/-! ## Spreadsheet variant (`server.js`) -/

/-- A spreadsheet cell as the Sheets values API carries it: text or a
number (the four nutrition columns are appended as raw numbers). -/
inductive Cell
  | str : String → Cell
  | num : Nat → Cell
deriving DecidableEq, Repr

/-- JavaScript truthiness of a cell value (`''` and `0` are falsy). -/
def jsTruthy : Cell → Bool
  | .str s => s ≠ ""
  | .num n => n ≠ 0

/-- String coercion of a cell value. -/
def cellToString : Cell → String
  | .str s => s
  | .num n => toString n

/-- JavaScript `x || 0` on a numeric field: `0` stays `0`, anything else is kept. -/
def jsOrZero (n : Nat) : Nat := if n = 0 then 0 else n

/-- JavaScript `s || ''` on a string field. -/
def jsOrEmpty (s : String) : String := if s = "" then "" else s

/-- JavaScript `arr.join(', ')`. -/
def joinComma (l : List String) : String := String.intercalate ", " l

/-- The in-memory `mealAnalysis` record built by `server.js`'s
analyze-meal handler (no owner, no stored buffer; `createdAt` is an ISO
timestamp string). -/
structure MealAnalysis where
  imagePath : String
  isComplete : Bool
  nutritionalInfo : NutritionalInfo
  suggestions : List String
  createdAt : String
deriving DecidableEq, Repr

/-- A sheet row and the sheet itself (`MealData!A:H`), the first row
being the header. -/
abbrev Row := List Cell

/-- The spreadsheet: a list of rows, header first. -/
abbrev Sheet := List Row

/-- The function `appendToSheet(data)`: appends one row
`[now ISO, imagePath || '', isComplete ? 'Yes' : 'No', proteins || 0,
carbs || 0, fats || 0, calories || 0, suggestions ? join(', ') : '']`
(an array is always truthy, so the join always runs). -/
def appendToSheet (nowIso : String) (data : MealAnalysis) (sheet : Sheet) : Sheet :=
  sheet ++
    [[.str nowIso,
      .str (jsOrEmpty data.imagePath),
      .str (if data.isComplete then "Yes" else "No"),
      .num (jsOrZero data.nutritionalInfo.proteins),
      .num (jsOrZero data.nutritionalInfo.carbs),
      .num (jsOrZero data.nutritionalInfo.fats),
      .num (jsOrZero data.nutritionalInfo.calories),
      .str (joinComma data.suggestions)]]

/-- A meal-history record as `getSheetData` reconstructs it from a row. -/
structure SheetRecord where
  id : Nat
  createdAt : String
  imagePath : String
  isComplete : Bool
  nutritionalInfo : NutritionalInfo
  suggestions : List String
deriving DecidableEq, Repr

/-- JavaScript `parseFloat(row[i]) || 0`: a numeric cell is kept (0 stays 0), a text
cell is parsed as a number, a missing cell (or NaN) becomes 0. -/
def parseFloatOr0 : Option Cell → Nat
  | some (.num n) => n
  | some (.str s) => (s.toNat?).getD 0
  | none => 0

/-- The row-to-record mapping inside `getSheetData`:
`createdAt = row[0] || now`, `imagePath = row[1] || ''`,
`isComplete = row[2] === 'Yes'`,
nutrition via `parseFloat(row[i]) || 0`,
`suggestions = row[7] ? row[7].split(', ') : []`. -/
def parseSheetRow (nowIso : String) (idx : Nat) (row : Row) : SheetRecord :=
  { id := idx
    createdAt :=
      match row.get? 0 with
      | some c => if jsTruthy c then cellToString c else nowIso
      | none => nowIso
    imagePath :=
      match row.get? 1 with
      | some c => if jsTruthy c then cellToString c else ""
      | none => ""
    isComplete := row.get? 2 = some (.str "Yes")
    nutritionalInfo :=
      { proteins := parseFloatOr0 (row.get? 3)
        carbs := parseFloatOr0 (row.get? 4)
        fats := parseFloatOr0 (row.get? 5)
        calories := parseFloatOr0 (row.get? 6) }
    suggestions :=
      match row.get? 7 with
      | some c => if jsTruthy c then splitCommaSpace (cellToString c) else []
      | none => [] }

/-- The mapping `rows.slice(1).map((row, index) => ...)` — indexed map over the data
rows. -/
def parseSheetRows (nowIso : String) : Nat → List Row → List SheetRecord
  | _, [] => []
  | i, r :: rs => parseSheetRow nowIso i r :: parseSheetRows nowIso (i + 1) rs

/-- The function `getSheetData()`: reads all rows; with at most the header present the
history is empty, otherwise every row after the header is parsed. -/
def getSheetData (nowIso : String) (sheet : Sheet) : List SheetRecord :=
  if sheet.length ≤ 1 then []
  else parseSheetRows nowIso 0 (sheet.drop 1)

/-- JSON answer of `POST /api/v1/analyze-meal` (spreadsheet variant). -/
inductive AnalyzeSheetsResponse
  | err (status : Nat) (message : String)
  | ok (analysis : MealAnalysis)
deriving DecidableEq, Repr

/-- Whether a spreadsheet-variant analyze response is the success case. -/
def AnalyzeSheetsResponse.isOk : AnalyzeSheetsResponse → Bool
  | .ok _ => true
  | .err _ _ => false

/-- Route `POST /api/v1/analyze-meal` in `server.js`: NO auth middleware — the
chain is `upload.single('image')` then the handler, whatever the
`x-auth-token` header holds. On success the generated analysis is
appended to the sheet and returned. -/
def analyzeMealSheets (now : Nat) (nowIso : String) (d : Draws)
    (req : Request) (sheet : Sheet) : AnalyzeSheetsResponse × Sheet :=
  match uploadSingle req.file with
  | .error _ => (.err 500 "Something went wrong!", sheet)
  | .ok none => (.err 400 "No image uploaded", sheet)
  | .ok (some _) =>
    let a := generateAnalysis d
    let meal : MealAnalysis :=
      { imagePath := "/uploads/meal_" ++ toString now ++ ".jpg"
        isComplete := a.isComplete
        nutritionalInfo := a.nutritionalInfo
        suggestions := a.suggestions
        createdAt := nowIso }
    (.ok meal, appendToSheet nowIso meal sheet)

/-- JSON answer of `GET /api/v1/meal-history` (spreadsheet variant). -/
inductive HistorySheetsResponse
  | err (status : Nat) (message : String)
  | ok (records : List SheetRecord)
deriving DecidableEq, Repr

/-- Route `GET /api/v1/meal-history` in `server.js`: NO auth middleware — every
caller receives the whole sheet's history. -/
def mealHistorySheets (nowIso : String) (req : Request) (sheet : Sheet) :
    HistorySheetsResponse :=
  match req with
  | _ => .ok (getSheetData nowIso sheet)

/-- The record `server.js` builds around a generated analysis before
appending it to the sheet. -/
def mealFromAnalysis (imagePath createdAt : String) (a : Analysis) : MealAnalysis :=
  { imagePath := imagePath
    isComplete := a.isComplete
    nutritionalInfo := a.nutritionalInfo
    suggestions := a.suggestions
    createdAt := createdAt }

/-! ## Helper lemmas -/

lemma mem_insertByCreatedAtDesc (m a : Meal) (l : List Meal) :
    a ∈ insertByCreatedAtDesc m l ↔ a = m ∨ a ∈ l := by
  induction l with
  | nil => simp [insertByCreatedAtDesc]
  | cons x xs ih =>
    by_cases h : x.createdAt ≤ m.createdAt
    · simp [insertByCreatedAtDesc, h, ih]
    · simp [insertByCreatedAtDesc, h, ih]
      tauto

lemma mem_sortByCreatedAtDesc (a : Meal) (l : List Meal) :
    a ∈ sortByCreatedAtDesc l ↔ a ∈ l := by
  induction l with
  | nil => simp [sortByCreatedAtDesc]
  | cons x xs ih => simp [sortByCreatedAtDesc, mem_insertByCreatedAtDesc, ih]

lemma pairwise_insertByCreatedAtDesc (m : Meal) (l : List Meal)
    (h : List.Pairwise (fun a b => b.createdAt ≤ a.createdAt) l) :
    List.Pairwise (fun a b => b.createdAt ≤ a.createdAt)
      (insertByCreatedAtDesc m l) := by
  induction l with
  | nil => simp [insertByCreatedAtDesc]
  | cons x xs ih =>
    rcases List.pairwise_cons.mp h with ⟨hx, hxs⟩
    by_cases hc : x.createdAt ≤ m.createdAt
    · simp only [insertByCreatedAtDesc, if_pos hc, List.pairwise_cons]
      refine ⟨?_, hx, hxs⟩
      intro b hb
      rcases List.mem_cons.mp hb with hb | hb
      · exact hb ▸ hc
      · exact le_trans (hx b hb) hc
    · simp only [insertByCreatedAtDesc, if_neg hc, List.pairwise_cons]
      refine ⟨?_, ih hxs⟩
      intro b hb
      rcases (mem_insertByCreatedAtDesc m b xs).mp hb with hb | hb
      · subst hb
        omega
      · exact hx b hb

lemma pairwise_sortByCreatedAtDesc (l : List Meal) :
    List.Pairwise (fun a b => b.createdAt ≤ a.createdAt)
      (sortByCreatedAtDesc l) := by
  induction l with
  | nil => simp [sortByCreatedAtDesc]
  | cons x xs ih => exact pairwise_insertByCreatedAtDesc x _ ih

lemma getField_deleteField_self (k : String) (o : List (String × MealField)) :
    getField k (deleteField k o) = none := by
  induction o with
  | nil => simp [getField, deleteField]
  | cons p ps ih =>
    by_cases h : p.1 = k <;>
      simp_all [getField, deleteField, List.filter_cons, List.find?]

lemma getField_deleteField_ne (k j : String) (h : ¬ k = j)
    (o : List (String × MealField)) :
    getField k (deleteField j o) = getField k o := by
  induction o with
  | nil => simp [getField, deleteField]
  | cons p ps ih =>
    by_cases hj : p.1 = j
    · have hk : ¬ p.1 = k := by
        intro hpk
        exact h (hpk ▸ hj)
      simp_all [getField, deleteField, List.filter_cons, List.find?]
    · by_cases hk : p.1 = k <;>
        simp_all [getField, deleteField, List.filter_cons, List.find?]

lemma parseSheetRows_append (nowIso : String) (i : Nat) (l1 l2 : List Row) :
    parseSheetRows nowIso i (l1 ++ l2) =
      parseSheetRows nowIso i l1 ++ parseSheetRows nowIso (i + l1.length) l2 := by
  induction l1 generalizing i with
  | nil => simp [parseSheetRows]
  | cons r rs ih =>
    simp only [List.cons_append, parseSheetRows, List.length_cons, List.append_eq]
    rw [ih]
    have h1 : i + 1 + rs.length = i + (rs.length + 1) := by omega
    rw [h1]

/-! ## Claim theorems -/

/-- C3: every generated analysis satisfies the calorie formula
`calories = 4*proteins + 4*carbs + 9*fats` over the drawn values. -/
theorem calories_formula (d : Draws) :
    (generateAnalysis d).nutritionalInfo.calories =
      4 * (generateAnalysis d).nutritionalInfo.proteins +
        4 * (generateAnalysis d).nutritionalInfo.carbs +
        9 * (generateAnalysis d).nutritionalInfo.fats := by
  simp only [generateAnalysis]
  ring

/-- C7: the suggestions of a generated analysis are the fixed
three-element improvement list exactly when the analysis is incomplete
and the empty list exactly when it is complete; no other value occurs. -/
theorem suggestions_dichotomy (d : Draws) :
    (generateAnalysis d).suggestions =
      (if (generateAnalysis d).isComplete then [] else improvementSuggestions) ∧
    ((generateAnalysis d).suggestions = [] ∨
      (generateAnalysis d).suggestions = improvementSuggestions) := by
  cases h : d.r0 <;> simp [generateAnalysis, h]

/-- C1 (amended): in the MongoDB variant, a request to
`POST /api/v1/analyze-meal` or `GET /api/v1/meal-history` whose
`x-auth-token` is absent, signed with another secret, or expired is
answered 401 with the middleware's message and the handler body never
runs: no record is created and no history is read. -/
theorem authGuard_rejects (secret : String) (now : Nat) (newId : String)
    (d : Draws) (f : Option UploadedFile) (store : List Meal) :
    (analyzeMealMongo secret now newId d ⟨none, f⟩ store =
        (.err 401 "No token, authorization denied", store) ∧
      mealHistoryMongo secret now ⟨none, f⟩ store =
        .err 401 "No token, authorization denied") ∧
    (∀ t : Token, ¬ t.secret = secret ∨ t.exp ≤ now →
      analyzeMealMongo secret now newId d ⟨some t, f⟩ store =
          (.err 401 "Token is not valid", store) ∧
        mealHistoryMongo secret now ⟨some t, f⟩ store =
          .err 401 "Token is not valid") := by
  refine ⟨⟨?_, ?_⟩, ?_⟩
  · simp [analyzeMealMongo, auth]
  · simp [mealHistoryMongo, auth]
  · intro t ht
    have hcond : ¬ (t.secret = secret ∧ now < t.exp) := by
      rcases ht with ht | ht
      · exact fun hc => ht hc.1
      · exact fun hc => absurd hc.2 (by omega)
    have hv : jwtVerify secret now t = none := by
      simp [jwtVerify, hcond]
    constructor <;> simp [analyzeMealMongo, mealHistoryMongo, auth, hv]

/-- C1 witness: a tokenless request and an expired-token request, both
rejected with the store untouched. -/
theorem authGuard_rejects_witness :
    analyzeMealMongo "s" 0 "m1" ⟨true, 0, 0, 0⟩ ⟨none, none⟩ [] =
        (.err 401 "No token, authorization denied", []) ∧
    mealHistoryMongo "s" 50 ⟨some ⟨"u", "s", 20⟩, none⟩ [] =
        .err 401 "Token is not valid" := by
  refine ⟨(authGuard_rejects "s" 0 "m1" ⟨true, 0, 0, 0⟩ none []).1.1, ?_⟩
  exact ((authGuard_rejects "s" 50 "m1" ⟨true, 0, 0, 0⟩ none []).2
    ⟨"u", "s", 20⟩ (Or.inr (by decide))).2

/-- The header row `initializeGoogleSheet` writes into `MealData!A1:H1`. -/
def headerRow : Row :=
  [.str "Timestamp", .str "ImagePath", .str "IsComplete", .str "Proteins",
   .str "Carbs", .str "Fats", .str "Calories", .str "Suggestions"]

/-- A well-formed image upload. -/
def demoImageFile : UploadedFile :=
  { originalname := "meal.png", mimetype := "image/png", buffer := [137, 80, 78, 71] }

/-- C1 counterexample: in `server.js` the very same routes carry no auth
middleware — a `POST /api/v1/analyze-meal` request with NO
`x-auth-token` header is not rejected: the handler runs, answers
success, and a meal record is appended to the sheet. -/
theorem sheets_route_unguarded_counterexample :
    ((analyzeMealSheets 7 "2025-01-01T00:00:00.000Z" ⟨true, 0, 0, 0⟩
          { xAuthToken := none, file := some demoImageFile } [headerRow]).1).isOk
        = true ∧
    (analyzeMealSheets 7 "2025-01-01T00:00:00.000Z" ⟨true, 0, 0, 0⟩
          { xAuthToken := none, file := some demoImageFile } [headerRow]).2.length
        = 2 := by
  decide

/-- C2 (amended): `listByOwner` returns exactly the caller's records —
membership in the result coincides with being a stored record of that
owner — ordered by non-increasing `createdAt` (descending, but not
strictly so when two records share a creation instant); a caller with
no records receives `[]`; and the meal-history route with a valid token
returns exactly these records serialized. -/
theorem listByOwner_spec (uid : String) (store : List Meal) :
    (∀ m, m ∈ listByOwner uid store ↔ (m ∈ store ∧ m.userId = uid)) ∧
    List.Pairwise (fun a b => b.createdAt ≤ a.createdAt) (listByOwner uid store) ∧
    ((∀ m ∈ store, ¬ m.userId = uid) → listByOwner uid store = []) ∧
    (∀ secret now t f, jwtVerify secret now t = some uid →
      mealHistoryMongo secret now ⟨some t, f⟩ store =
        .ok ((listByOwner uid store).map responseAnalysis)) := by
  refine ⟨?_, pairwise_sortByCreatedAtDesc _, ?_, ?_⟩
  · intro m
    simp [listByOwner, mem_sortByCreatedAtDesc, List.mem_filter]
  · intro h
    have hf : store.filter (fun m => m.userId = uid) = [] := by
      rw [List.filter_eq_nil_iff]
      intro a ha
      simpa using h a ha
    simp [listByOwner, hf, sortByCreatedAtDesc]
  · intro secret now t f hv
    simp [mealHistoryMongo, auth, hv]

/-- C2 witness: a caller with no uploads gets the empty history. -/
theorem listByOwner_spec_witness :
    listByOwner "u" [] = [] ∧
    mealHistoryMongo "s" 0 ⟨some ⟨"u", "s", 10⟩, none⟩ [] = .ok [] := by
  have h := listByOwner_spec "u" ([] : List Meal)
  have h3 : listByOwner "u" ([] : List Meal) = [] := h.2.2.1 (by simp)
  have h4 := h.2.2.2 "s" 0 ⟨"u", "s", 10⟩ none (by decide)
  rw [h3] at h4
  exact ⟨h3, by simpa using h4⟩

/-- Two meal records of the same owner created at the same instant
(`Date.now` default has millisecond granularity, so two saves in the
same millisecond collide). -/
def mealTieA : Meal :=
  { id := "a", userId := "u", imagePath := "", imageBuffer := [],
    isComplete := true, nutritionalInfo := ⟨10, 20, 5, 165⟩,
    suggestions := [], createdAt := 5 }

/-- Second record with the same owner and creation instant as `mealTieA`. -/
def mealTieB : Meal :=
  { id := "b", userId := "u", imagePath := "", imageBuffer := [],
    isComplete := false, nutritionalInfo := ⟨11, 21, 6, 182⟩,
    suggestions := improvementSuggestions, createdAt := 5 }

/-- C2 counterexample: with two same-owner records sharing `createdAt`,
the history contains both (ownership is exact) but is NOT strictly
descending in `createdAt`, refuting the claim's strict ordering. -/
theorem listByOwner_not_strict_counterexample :
    listByOwner "u" [mealTieA, mealTieB] = [mealTieA, mealTieB] ∧
    ¬ List.Pairwise (fun a b => b.createdAt < a.createdAt)
        (listByOwner "u" [mealTieA, mealTieB]) := by
  have hlist : listByOwner "u" [mealTieA, mealTieB] = [mealTieA, mealTieB] := by
    decide
  refine ⟨hlist, ?_⟩
  rw [hlist]
  intro hp
  exact absurd (List.rel_of_pairwise_cons hp (List.mem_cons_self _ _)) (by decide)

/-- C4: registering a fresh username succeeds (201) and appends exactly
one user holding the bcrypt hash (never the plaintext, the hash being
distinct from it); registering an existing username — in particular the
one just created — fails 400 `'User already exists'` with the store
untouched; and every register call preserves username uniqueness. -/
theorem register_spec (bhash : String → String) (secret : String) (now : Nat)
    (newId : String) (users : List User) (uname pw : String) :
    (users.find? (fun u => u.username = uname) = none →
      register bhash secret now newId users uname pw =
        (.created 201 (jwtSign secret now newId) newId uname,
         users ++ [⟨newId, uname, bhash pw, now⟩])) ∧
    ((∃ u ∈ users, u.username = uname) →
      register bhash secret now newId users uname pw =
        (.conflict 400 "User already exists", users)) ∧
    ((∀ p, ¬ bhash p = p) →
      ∀ u ∈ (register bhash secret now newId users uname pw).2,
        u ∈ users ∨ (u.username = uname ∧ u.password = bhash pw ∧
          ¬ u.password = pw)) ∧
    (List.Pairwise (fun a b => ¬ a.username = b.username) users →
      List.Pairwise (fun a b => ¬ a.username = b.username)
        (register bhash secret now newId users uname pw).2) ∧
    (users.find? (fun v => v.username = uname) = none → ∀ pw2 : String,
      register bhash secret now newId
          (register bhash secret now newId users uname pw).2 uname pw2 =
        (.conflict 400 "User already exists",
         (register bhash secret now newId users uname pw).2)) := by
  have hconf : ∀ (us : List User) (p2 : String), (∃ u ∈ us, u.username = uname) →
      register bhash secret now newId us uname p2 =
        (.conflict 400 "User already exists", us) := by
    rintro us p2 ⟨u, hu, hn⟩
    have hsome : (us.find? (fun v => v.username = uname)).isSome = true :=
      List.find?_isSome.mpr ⟨u, hu, by simp [hn]⟩
    cases hfind : us.find? (fun v => v.username = uname) with
    | none =>
      rw [hfind] at hsome
      simp at hsome
    | some v => simp [register, hfind]
  refine ⟨?_, hconf users pw, ?_, ?_, ?_⟩
  · intro hnone
    simp [register, hnone]
  · intro hh u hu
    cases hfind : users.find? (fun v => v.username = uname) with
    | some v =>
      simp only [register, hfind] at hu
      exact Or.inl hu
    | none =>
      simp only [register, hfind] at hu
      rcases List.mem_append.mp hu with h | h
      · exact Or.inl h
      · right
        have hq : u = ⟨newId, uname, bhash pw, now⟩ := by simpa using h
        subst hq
        exact ⟨rfl, rfl, hh pw⟩
  · intro hpw
    cases hfind : users.find? (fun v => v.username = uname) with
    | some v => simpa [register, hfind] using hpw
    | none =>
      simp only [register, hfind]
      rw [List.pairwise_append]
      refine ⟨hpw, by simp, ?_⟩
      intro a ha b hb
      have hb' : b = ⟨newId, uname, bhash pw, now⟩ := by simpa using hb
      subst hb'
      have hne := List.find?_eq_none.mp hfind a ha
      simpa using hne
  · intro hnone p2
    have h1 : register bhash secret now newId users uname pw =
        (.created 201 (jwtSign secret now newId) newId uname,
         users ++ [⟨newId, uname, bhash pw, now⟩]) := by
      simp [register, hnone]
    rw [h1]
    exact hconf _ p2 ⟨⟨newId, uname, bhash pw, now⟩, by simp, rfl⟩

/-- C4 witness: first registration of `"a"` succeeds and stores the hash,
the second one conflicts and leaves the store unchanged. -/
theorem register_spec_witness :
    register (fun p => "#" ++ p) "s" 0 "u1" [] "a" "p" =
      (.created 201 (jwtSign "s" 0 "u1") "u1" "a", [⟨"u1", "a", "#p", 0⟩]) ∧
    register (fun p => "#" ++ p) "s" 1 "u2" [⟨"u1", "a", "#p", 0⟩] "a" "q" =
      (.conflict 400 "User already exists", [⟨"u1", "a", "#p", 0⟩]) := by
  constructor
  · exact ((register_spec (fun p => "#" ++ p) "s" 0 "u1" [] "a" "p").1 rfl).trans
      (by decide)
  · exact (register_spec (fun p => "#" ++ p) "s" 1 "u2"
        [⟨"u1", "a", "#p", 0⟩] "a" "q").2.1
      ⟨⟨"u1", "a", "#p", 0⟩, by simp, rfl⟩

/-- C5: login answers 400 `'Invalid credentials'` both when the username
is unknown and when the hash comparison fails (the same failure either
way); on success the response is exactly a token signed for the user's
id — expiring 24 hours after issuance, accepted by the verifier before
that instant and refused from it on — plus the public fields id and
username (the stored hash appears nowhere in the response). -/
theorem login_spec (bhash : String → String) (secret : String) (now : Nat)
    (users : List User) (uname pw : String) :
    (users.find? (fun v => v.username = uname) = none →
      login bhash secret now users uname pw = .invalid 400 "Invalid credentials") ∧
    (∀ u, users.find? (fun v => v.username = uname) = some u →
      bcryptCompare bhash pw u.password = false →
      login bhash secret now users uname pw = .invalid 400 "Invalid credentials") ∧
    (∀ u, users.find? (fun v => v.username = uname) = some u →
      bcryptCompare bhash pw u.password = true →
      login bhash secret now users uname pw =
          .success (jwtSign secret now u.id) u.id u.username ∧
        (jwtSign secret now u.id).payloadId = u.id ∧
        (jwtSign secret now u.id).exp = now + 24 * 60 * 60 ∧
        (∀ now2, now2 < now + 24 * 60 * 60 →
          jwtVerify secret now2 (jwtSign secret now u.id) = some u.id) ∧
        (∀ now2, now + 24 * 60 * 60 ≤ now2 →
          jwtVerify secret now2 (jwtSign secret now u.id) = none)) := by
  refine ⟨?_, ?_, ?_⟩
  · intro h
    simp [login, h]
  · intro u hf hc
    simp [login, hf, hc]
  · intro u hf hc
    refine ⟨by simp [login, hf, hc], rfl, by simp [jwtSign], ?_, ?_⟩
    · intro now2 h2
      have hlt : now2 < now + 86400 := by omega
      simp [jwtVerify, jwtSign, hlt]
    · intro now2 h2
      have hge : ¬ now2 < now + 86400 := by omega
      simp [jwtVerify, jwtSign, hge]

/-- C5 witness: unknown username and wrong password both answer
`'Invalid credentials'`; the correct password yields the signed token,
which the verifier accepts an hour later. -/
theorem login_spec_witness :
    login (fun p => "#" ++ p) "s" 0 [] "a" "p" =
      .invalid 400 "Invalid credentials" ∧
    login (fun p => "#" ++ p) "s" 0 [⟨"u1", "a", "#p", 0⟩] "a" "q" =
      .invalid 400 "Invalid credentials" ∧
    login (fun p => "#" ++ p) "s" 0 [⟨"u1", "a", "#p", 0⟩] "a" "p" =
      .success (jwtSign "s" 0 "u1") "u1" "a" ∧
    jwtVerify "s" 3600 (jwtSign "s" 0 "u1") = some "u1" := by
  refine ⟨(login_spec (fun p => "#" ++ p) "s" 0 [] "a" "p").1 rfl,
    (login_spec (fun p => "#" ++ p) "s" 0 [⟨"u1", "a", "#p", 0⟩] "a" "q").2.1
      ⟨"u1", "a", "#p", 0⟩ (by decide) (by decide), ?_, ?_⟩
  · exact ((login_spec (fun p => "#" ++ p) "s" 0 [⟨"u1", "a", "#p", 0⟩] "a" "p").2.2
      ⟨"u1", "a", "#p", 0⟩ (by decide) (by decide)).1
  · exact ((login_spec (fun p => "#" ++ p) "s" 0 [⟨"u1", "a", "#p", 0⟩] "a" "p").2.2
      ⟨"u1", "a", "#p", 0⟩ (by decide) (by decide)).2.2.2.1 3600 (by decide)

/-- C6: a non-image content type is refused by the `fileFilter`
(`UnsupportedMediaType`); an image body above the 10 MB `fileSize`
ceiling aborts with `LIMIT_FILE_SIZE` (`PayloadTooLarge`); and whenever
the upload layer errors, neither variant's analyze-meal route creates a
record — MongoDB store and spreadsheet both stay unchanged. -/
theorem upload_spec (f : UploadedFile) :
    (¬ jsStartsWith f.mimetype "image/" = true →
      uploadSingle (some f) = .error .unsupportedMediaType) ∧
    (jsStartsWith f.mimetype "image/" = true → fileSizeLimit < f.buffer.length →
      uploadSingle (some f) = .error .payloadTooLarge) ∧
    (∀ e, uploadSingle (some f) = .error e →
      (∀ secret now newId d tok store,
        (analyzeMealMongo secret now newId d ⟨tok, some f⟩ store).2 = store) ∧
      (∀ now nowIso d tok sheet,
        (analyzeMealSheets now nowIso d ⟨tok, some f⟩ sheet).2 = sheet)) := by
  refine ⟨?_, ?_, ?_⟩
  · intro h
    simp [uploadSingle, h]
  · intro h1 h2
    have h3 : ¬ f.buffer.length ≤ fileSizeLimit := by omega
    simp [uploadSingle, h1, h3]
  · intro e he
    constructor
    · intro secret now newId d tok store
      cases hA : auth secret now tok with
      | rejected st msg => simp [analyzeMealMongo, hA]
      | authed uid => simp [analyzeMealMongo, hA, he]
    · intro now nowIso d tok sheet
      simp [analyzeMealSheets, he]

/-- An upload whose declared content type is not an image. -/
def demoTextFile : UploadedFile :=
  { originalname := "notes.txt", mimetype := "text/plain", buffer := [104, 105] }

/-- An image upload one byte over the 10 MB ceiling. -/
def demoBigFile : UploadedFile :=
  { originalname := "big.png", mimetype := "image/png",
    buffer := List.replicate (fileSizeLimit + 1) 0 }

/-- C6 witness: the text file is refused as unsupported, the oversized
image as too large, and a rejected upload leaves the sheet unchanged. -/
theorem upload_spec_witness :
    uploadSingle (some demoTextFile) = .error .unsupportedMediaType ∧
    uploadSingle (some demoBigFile) = .error .payloadTooLarge ∧
    (analyzeMealSheets 0 "t" ⟨true, 0, 0, 0⟩ ⟨none, some demoTextFile⟩
        [headerRow]).2 = [headerRow] := by
  have h1 := (upload_spec demoTextFile).1 (by decide)
  have hbig : fileSizeLimit < demoBigFile.buffer.length := by
    show fileSizeLimit < (List.replicate (fileSizeLimit + 1) 0).length
    rw [List.length_replicate]
    omega
  have h2 := (upload_spec demoBigFile).2.1 (by decide) hbig
  exact ⟨h1, h2, ((upload_spec demoTextFile).2.2 .unsupportedMediaType h1).2
    0 "t" ⟨true, 0, 0, 0⟩ none [headerRow]⟩

/-- The serialized analyze-meal record does not change when only the
uploaded bytes change: the buffer is the sole differing field and it is
deleted before the response. -/
lemma responseAnalysis_mkMeal_buffer_irrelevant (newId uid : String) (now : Nat)
    (f1 f2 : UploadedFile) (a : Analysis) :
    responseAnalysis (mkMeal newId uid now f1 a) =
      responseAnalysis (mkMeal newId uid now f2 a) := rfl

/-- C8: the analysis is independent of the uploaded image's bytes — for
two requests identical except for the image content (same declared
type, same size), with the same draws and clock, the HTTP response is
the same and the stores agree record-by-record on every analysis field
(`isComplete`, nutrition, suggestions). -/
theorem analysis_ignores_image_bytes (secret : String) (now : Nat)
    (newId : String) (d : Draws) (tok : Option Token) (store : List Meal)
    (f1 f2 : UploadedFile) (hm : f1.mimetype = f2.mimetype)
    (hl : f1.buffer.length = f2.buffer.length) :
    (analyzeMealMongo secret now newId d ⟨tok, some f1⟩ store).1 =
      (analyzeMealMongo secret now newId d ⟨tok, some f2⟩ store).1 ∧
    (analyzeMealMongo secret now newId d ⟨tok, some f1⟩ store).2.map
        Meal.analysisOf =
      (analyzeMealMongo secret now newId d ⟨tok, some f2⟩ store).2.map
        Meal.analysisOf := by
  have hs2 : jsStartsWith f2.mimetype "image/" = jsStartsWith f1.mimetype "image/" := by
    rw [hm]
  cases hA : auth secret now tok with
  | rejected st msg => simp [analyzeMealMongo, hA]
  | authed uid =>
    by_cases hs : jsStartsWith f1.mimetype "image/"
    · by_cases hlen : f1.buffer.length ≤ fileSizeLimit
      · have hU1 : uploadSingle (some f1) = .ok (some f1) := by
          simp [uploadSingle, hs, hlen]
        have hU2 : uploadSingle (some f2) = .ok (some f2) := by
          simp [uploadSingle, hs2, hs, ← hl, hlen]
        constructor
        · simp only [analyzeMealMongo, hA, hU1, hU2]
          rfl
        · simp only [analyzeMealMongo, hA, hU1, hU2]
          simp [List.map_append, Meal.analysisOf, mkMeal]
      · have hU1 : uploadSingle (some f1) = .error .payloadTooLarge := by
          simp [uploadSingle, hs, hlen]
        have hU2 : uploadSingle (some f2) = .error .payloadTooLarge := by
          simp [uploadSingle, hs2, hs, ← hl, hlen]
        simp [analyzeMealMongo, hA, hU1, hU2]
    · have hU1 : uploadSingle (some f1) = .error .unsupportedMediaType := by
        simp [uploadSingle, hs]
      have hU2 : uploadSingle (some f2) = .error .unsupportedMediaType := by
        simp [uploadSingle, hs2, hs]
      simp [analyzeMealMongo, hA, hU1, hU2]

/-- C8 witness: two uploads of the same type and size but different bytes
produce the same response and analysis-equal stores. -/
theorem analysis_ignores_image_bytes_witness :
    (analyzeMealMongo "s" 0 "m1" ⟨true, 1, 2, 3⟩
        ⟨some ⟨"u", "s", 9⟩, some ⟨"a.png", "image/png", [0, 1]⟩⟩ []).1 =
      (analyzeMealMongo "s" 0 "m1" ⟨true, 1, 2, 3⟩
        ⟨some ⟨"u", "s", 9⟩, some ⟨"b.png", "image/png", [7, 8]⟩⟩ []).1 ∧
    (analyzeMealMongo "s" 0 "m1" ⟨true, 1, 2, 3⟩
        ⟨some ⟨"u", "s", 9⟩, some ⟨"a.png", "image/png", [0, 1]⟩⟩ []).2.map
        Meal.analysisOf =
      (analyzeMealMongo "s" 0 "m1" ⟨true, 1, 2, 3⟩
        ⟨some ⟨"u", "s", 9⟩, some ⟨"b.png", "image/png", [7, 8]⟩⟩ []).2.map
        Meal.analysisOf :=
  analysis_ignores_image_bytes "s" 0 "m1" ⟨true, 1, 2, 3⟩ (some ⟨"u", "s", 9⟩) []
    ⟨"a.png", "image/png", [0, 1]⟩ ⟨"b.png", "image/png", [7, 8]⟩ rfl rfl

/-- C9: in the MongoDB variant, the response object of a successful
analyze-meal call is exactly the saved document serialized without
`imageBuffer` — that key looks up to nothing while every other key is
unchanged — and the meal-history response is exactly the caller's
records serialized the same way. -/
theorem imageBuffer_stripped (secret : String) (now : Nat) (newId : String)
    (d : Draws) (req : Request) (store : List Meal) (m : Meal) (k : String)
    (hk : ¬ k = "imageBuffer") :
    getField "imageBuffer" (responseAnalysis m) = none ∧
    getField k (responseAnalysis m) = getField k (mealToObject m) ∧
    (∀ uid f, auth secret now req.xAuthToken = .authed uid →
      uploadSingle req.file = .ok (some f) →
      analyzeMealMongo secret now newId d req store =
        (.ok (responseAnalysis (mkMeal newId uid now f (generateAnalysis d))),
         store ++ [mkMeal newId uid now f (generateAnalysis d)])) ∧
    (∀ uid, auth secret now req.xAuthToken = .authed uid →
      mealHistoryMongo secret now req store =
        .ok ((listByOwner uid store).map responseAnalysis)) := by
  refine ⟨getField_deleteField_self _ _, getField_deleteField_ne k _ hk _, ?_, ?_⟩
  · intro uid f hA hU
    simp [analyzeMealMongo, hA, hU]
  · intro uid hA
    simp [mealHistoryMongo, hA]

/-- C9 witness: on a concrete record the `imageBuffer` key is gone, the
`userId` key is preserved, and a concrete history call serializes the
owner's records. -/
theorem imageBuffer_stripped_witness :
    getField "imageBuffer" (responseAnalysis mealTieA) = none ∧
    getField "userId" (responseAnalysis mealTieA) =
      getField "userId" (mealToObject mealTieA) ∧
    mealHistoryMongo "s" 0 ⟨some ⟨"u", "s", 9⟩, none⟩ [mealTieA] =
      .ok ((listByOwner "u" [mealTieA]).map responseAnalysis) := by
  have h := imageBuffer_stripped "s" 0 "m1" ⟨true, 0, 0, 0⟩
    ⟨some ⟨"u", "s", 9⟩, none⟩ [mealTieA] mealTieA "userId" (by decide)
  exact ⟨h.1, h.2.1, h.2.2.2 "u" (by decide)⟩

lemma generateAnalysis_suggestions_cases (d : Draws) :
    (generateAnalysis d).suggestions = [] ∨
      (generateAnalysis d).suggestions = improvementSuggestions := by
  cases h : d.r0 <;> simp [generateAnalysis, h]

/-- Parsing the exact row `appendToSheet` writes for an analysis recovers
its completeness flag, nutrition numbers (all nonzero, so the `|| 0`
fallbacks are inert) and suggestion list (the fixed list survives the
`join(', ')`/`split(', ')` trip; the empty list is stored as `''` and
read back empty). -/
lemma parseSheetRow_of_appendedRow (nowIso nowIso2 ip : String) (idx : Nat)
    (a : Analysis)
    (hsugg : a.suggestions = [] ∨ a.suggestions = improvementSuggestions)
    (hp : ¬ a.nutritionalInfo.proteins = 0)
    (hc : ¬ a.nutritionalInfo.carbs = 0)
    (hf : ¬ a.nutritionalInfo.fats = 0)
    (hcal : ¬ a.nutritionalInfo.calories = 0) :
    (parseSheetRow nowIso2 idx
        [.str nowIso, .str (jsOrEmpty ip),
         .str (if a.isComplete then "Yes" else "No"),
         .num (jsOrZero a.nutritionalInfo.proteins),
         .num (jsOrZero a.nutritionalInfo.carbs),
         .num (jsOrZero a.nutritionalInfo.fats),
         .num (jsOrZero a.nutritionalInfo.calories),
         .str (joinComma a.suggestions)]).isComplete = a.isComplete ∧
    (parseSheetRow nowIso2 idx
        [.str nowIso, .str (jsOrEmpty ip),
         .str (if a.isComplete then "Yes" else "No"),
         .num (jsOrZero a.nutritionalInfo.proteins),
         .num (jsOrZero a.nutritionalInfo.carbs),
         .num (jsOrZero a.nutritionalInfo.fats),
         .num (jsOrZero a.nutritionalInfo.calories),
         .str (joinComma a.suggestions)]).nutritionalInfo = a.nutritionalInfo ∧
    (parseSheetRow nowIso2 idx
        [.str nowIso, .str (jsOrEmpty ip),
         .str (if a.isComplete then "Yes" else "No"),
         .num (jsOrZero a.nutritionalInfo.proteins),
         .num (jsOrZero a.nutritionalInfo.carbs),
         .num (jsOrZero a.nutritionalInfo.fats),
         .num (jsOrZero a.nutritionalInfo.calories),
         .str (joinComma a.suggestions)]).suggestions = a.suggestions := by
  have hempty : jsTruthy (.str (joinComma ([] : List String))) = false := by decide
  have hfull : jsTruthy (.str (joinComma improvementSuggestions)) = true := by decide
  have hsplit : splitCommaSpace (joinComma improvementSuggestions) =
      improvementSuggestions := by decide
  refine ⟨?_, ?_, ?_⟩
  · cases hI : a.isComplete <;> simp [parseSheetRow, hI, List.get?]
  · simp [parseSheetRow, List.get?, parseFloatOr0, jsOrZero, hp, hc, hf, hcal]
  · rcases hsugg with hs | hs <;>
      rw [hs] <;> simp [parseSheetRow, List.get?, hempty, hfull, hsplit, cellToString]

/-- C10: appending a generated analysis to a sheet that already has its
header row and reading the sheet back yields, as last record, one whose
completeness flag, nutrition numbers and suggestion list equal the
written analysis's — `appendToSheet` then `getSheetData` is a round
trip on everything the generator can produce. -/
theorem sheet_roundTrip (d : Draws) (ip ca nowIso nowIso2 : String)
    (sheet : Sheet) (hsheet : 1 ≤ sheet.length) :
    ∃ r : SheetRecord,
      (getSheetData nowIso2
          (appendToSheet nowIso (mealFromAnalysis ip ca (generateAnalysis d))
            sheet)).getLast? = some r ∧
      r.isComplete = (generateAnalysis d).isComplete ∧
      r.nutritionalInfo = (generateAnalysis d).nutritionalInfo ∧
      r.suggestions = (generateAnalysis d).suggestions := by
  have hp : ¬ (generateAnalysis d).nutritionalInfo.proteins = 0 := by
    simp [generateAnalysis]
  have hc : ¬ (generateAnalysis d).nutritionalInfo.carbs = 0 := by
    simp [generateAnalysis]
  have hf : ¬ (generateAnalysis d).nutritionalInfo.fats = 0 := by
    simp [generateAnalysis]
  have hcal : ¬ (generateAnalysis d).nutritionalInfo.calories = 0 := by
    simp [generateAnalysis]
  have happ : appendToSheet nowIso (mealFromAnalysis ip ca (generateAnalysis d))
      sheet = sheet ++
        [[.str nowIso, .str (jsOrEmpty ip),
          .str (if (generateAnalysis d).isComplete then "Yes" else "No"),
          .num (jsOrZero (generateAnalysis d).nutritionalInfo.proteins),
          .num (jsOrZero (generateAnalysis d).nutritionalInfo.carbs),
          .num (jsOrZero (generateAnalysis d).nutritionalInfo.fats),
          .num (jsOrZero (generateAnalysis d).nutritionalInfo.calories),
          .str (joinComma (generateAnalysis d).suggestions)]] := rfl
  rw [happ]
  have hlen2 : ¬ (sheet ++
      [[Cell.str nowIso, .str (jsOrEmpty ip),
        .str (if (generateAnalysis d).isComplete then "Yes" else "No"),
        .num (jsOrZero (generateAnalysis d).nutritionalInfo.proteins),
        .num (jsOrZero (generateAnalysis d).nutritionalInfo.carbs),
        .num (jsOrZero (generateAnalysis d).nutritionalInfo.fats),
        .num (jsOrZero (generateAnalysis d).nutritionalInfo.calories),
        .str (joinComma (generateAnalysis d).suggestions)]]).length ≤ 1 := by
    rw [List.length_append]
    simp only [List.length_cons, List.length_nil]
    omega
  rw [getSheetData, if_neg hlen2, List.drop_append_of_le_length hsheet,
    parseSheetRows_append]
  have hone : parseSheetRows nowIso2 (0 + (sheet.drop 1).length)
      [[Cell.str nowIso, .str (jsOrEmpty ip),
        .str (if (generateAnalysis d).isComplete then "Yes" else "No"),
        .num (jsOrZero (generateAnalysis d).nutritionalInfo.proteins),
        .num (jsOrZero (generateAnalysis d).nutritionalInfo.carbs),
        .num (jsOrZero (generateAnalysis d).nutritionalInfo.fats),
        .num (jsOrZero (generateAnalysis d).nutritionalInfo.calories),
        .str (joinComma (generateAnalysis d).suggestions)]] =
      [parseSheetRow nowIso2 (0 + (sheet.drop 1).length)
        [.str nowIso, .str (jsOrEmpty ip),
         .str (if (generateAnalysis d).isComplete then "Yes" else "No"),
         .num (jsOrZero (generateAnalysis d).nutritionalInfo.proteins),
         .num (jsOrZero (generateAnalysis d).nutritionalInfo.carbs),
         .num (jsOrZero (generateAnalysis d).nutritionalInfo.fats),
         .num (jsOrZero (generateAnalysis d).nutritionalInfo.calories),
         .str (joinComma (generateAnalysis d).suggestions)]] := rfl
  rw [hone, List.getLast?_concat]
  refine ⟨_, rfl, ?_⟩
  exact And.intro
    (parseSheetRow_of_appendedRow nowIso nowIso2 ip _ (generateAnalysis d)
      (generateAnalysis_suggestions_cases d) hp hc hf hcal).1
    (And.intro
      (parseSheetRow_of_appendedRow nowIso nowIso2 ip _ (generateAnalysis d)
        (generateAnalysis_suggestions_cases d) hp hc hf hcal).2.1
      (parseSheetRow_of_appendedRow nowIso nowIso2 ip _ (generateAnalysis d)
        (generateAnalysis_suggestions_cases d) hp hc hf hcal).2.2)

/-- C10 witness: a concrete incomplete analysis appended after the header
row reads back with its flag, nutrition and suggestions intact. -/
theorem sheet_roundTrip_witness :
    (1 : Nat) ≤ ([headerRow] : Sheet).length ∧
    ∃ r : SheetRecord,
      (getSheetData "x"
          (appendToSheet "t"
            (mealFromAnalysis "/p" "c" (generateAnalysis ⟨false, 1, 2, 3⟩))
            [headerRow])).getLast? = some r ∧
      r.isComplete = (generateAnalysis ⟨false, 1, 2, 3⟩).isComplete ∧
      r.nutritionalInfo = (generateAnalysis ⟨false, 1, 2, 3⟩).nutritionalInfo ∧
      r.suggestions = (generateAnalysis ⟨false, 1, 2, 3⟩).suggestions :=
  ⟨by decide, sheet_roundTrip ⟨false, 1, 2, 3⟩ "/p" "c" "t" "x" [headerRow]
    (by decide)⟩
